import Mathlib

/-!
# Verification of rbot's Context/InstanceManager and channel protocol layer

This development shallowly embeds the resource-management core of the rbot
repository (`rbot/context.py`), the POSIX command-execution protocol
(`rbot/channel/common.py`), the shell handshake
(`wait_for_shell` in `rbot/channel/common.py` and
`rbot/machine/shell/linux/util.py`) and the run-command proxy
(`rbot/machine/shell/linux/util.py`) into Lean, and proves the behavioural
properties stated in the specification.

Machine instances are identified by natural numbers handed out by a fresh-id
supply; exceptions raised by the Python code are represented by an explicit
error enumeration and `Except`.
-/

namespace Rbot

/-- Errors raised by the context layer.  `ContextError` in the source is a
single exception class; we keep the distinct raise sites apart so theorems can
tell them apart, and record via `isContextError` which constructors correspond
to `rbot.error.ContextError` (as opposed to `MachineNotFoundError`). -/
inductive CtxErr where
  | closedInstance      -- "trying to access a closed instance"
  | notAvailable        -- "trying to access instance which is not available"
  | reinitLive          -- "trying to re-initialize a live instance"
  | deinitClosed        -- "trying to de-init a closed instance"
  | keepAliveNotEntered -- keep_alive context used without entering its manager
  | machineNotFound     -- rbot.error.MachineNotFoundError
deriving DecidableEq, Repr

/-- Which of the error constructors model `rbot.error.ContextError`. -/
def CtxErr.isContextError : CtxErr → Bool
  | .machineNotFound => false
  | _ => true

/-- State of `InstanceManager` (context.py:46-119): `_instance` (modelled as
an optional instance id), `_current_users`, `_available`. -/
structure InstanceManager where
  inst : Option Nat
  current_users : Int
  available : Bool
deriving DecidableEq, Repr

/-- `InstanceManager.__init__`: no instance, zero users, not available. -/
def InstanceManager.initial : InstanceManager :=
  { inst := none, current_users := 0, available := false }

/-- `InstanceManager.is_alive` (context.py:115-116). -/
def InstanceManager.is_alive (im : InstanceManager) : Bool :=
  im.inst.isSome

/-- `InstanceManager.has_users` (context.py:118-119). -/
def InstanceManager.has_users (im : InstanceManager) : Bool :=
  im.current_users ≠ 0

/-- `InstanceManager.init` (context.py:53-72): fails on a live instance,
otherwise installs the freshly constructed instance (id `fresh`) and marks the
manager available.  `_current_users` is not touched. -/
def InstanceManager.init (im : InstanceManager) (fresh : Nat) :
    Except CtxErr InstanceManager :=
  if im.inst.isSome then
    .error .reinitLive
  else
    .ok { im with inst := some fresh, available := true }

/-- `InstanceManager.teardown` (context.py:74-83): fails on a closed instance,
otherwise closes the exit-stack and clears `_instance`.  `_available` and
`_current_users` are not touched. -/
def InstanceManager.teardown (im : InstanceManager) :
    Except CtxErr InstanceManager :=
  if im.inst.isSome then
    .ok { im with inst := none }
  else
    .error .deinitClosed

/-- Entry half of `InstanceManager.request` (context.py:86-104): the checks and
mutations performed before the `yield`.  Returns the instance id handed to the
body.  On error the manager state is returned unchanged, mirroring that the
source raises before mutating anything. -/
def InstanceManager.request_enter (im : InstanceManager) (exclusive : Bool) :
    Except CtxErr (Nat × InstanceManager) :=
  match im.inst with
  | none => .error .closedInstance
  | some i =>
    if !im.available then
      .error .notAvailable
    else
      .ok (i, { im with
                current_users := im.current_users + 1,
                available := if exclusive then false else im.available })

/-- Exit half of `InstanceManager.request` (context.py:105-113): the `finally`
block.  Decrements `_current_users` and tears down when the request was
exclusive or the last non-keep-alive user left (teardown guarded by
`is_alive`). -/
def InstanceManager.request_exit (im : InstanceManager)
    (exclusive keep_alive : Bool) : InstanceManager :=
  let im1 := { im with current_users := im.current_users - 1 }
  if (exclusive = true ∨ (keep_alive = false ∧ im1.current_users = 0))
      ∧ im1.is_alive = true then
    { im1 with inst := none }
  else
    im1

/-- A Python exception escaping a `request()` scope.  `isPytestSkipped` models
the source's test `e.__class__.__name__ == "Skipped" and
e.__class__.mro()[1].__module__ == "_pytest.outcomes"` (context.py:437-438). -/
structure PyExc where
  id : Nat
  isPytestSkipped : Bool
deriving DecidableEq, Repr

/-- State of `Context` (context.py:122-178).  Roles and machine classes are
identified by naturals; `instances` models the `defaultdict` as a total
function with default `InstanceManager.initial` plus the explicit key set
`instance_keys`; `next_id` is the fresh-instance-id supply standing for the
construction of a new machine object by `machine_class.from_context`. -/
structure Context where
  roles : Nat → Option Nat
  keep_alive : Bool
  reset_on_error_default : Bool
  open_contexts : Int
  teardown_order : List Nat
  instances : Nat → InstanceManager
  instance_keys : List Nat
  next_id : Nat

/-- `Context._get_class_and_instance` (context.py:283-298): resolve a role (or
an already-known machine class) to the machine class; the trailing
`self._instances[machine_class]` access adds the class to the defaultdict's
key set. -/
def Context.get_class_and_instance (c : Context) (role : Nat) :
    Except CtxErr (Nat × Context) :=
  match c.roles role with
  | some k =>
    .ok (k, if k ∈ c.instance_keys then c
            else { c with instance_keys := c.instance_keys ++ [k] })
  | none =>
    if role ∈ c.instance_keys then .ok (role, c)
    else .error .machineNotFound

/-- Entry half of `Context.request` (context.py:408-430): everything up to and
including the body's first statements before `yield m` (the `teardown_order`
bookkeeping).  Returns the state of the context at the point the body starts
(or, on error, at the point the exception is raised).  On success the value is
`(instance id, machine class)`; the class is plumbing the generator frame
keeps for the exit half.

The alive-and-`reset` teardown and the lazy `init` cannot fail (they are
guarded by `is_alive`), so they are written as the record updates
`InstanceManager.teardown` and `InstanceManager.init` perform in their
success branch; `instance_teardown_of_alive` and `instance_init_of_dead`
below certify the agreement. -/
def Context.request_enter (c : Context) (role : Nat) (reset exclusive : Bool) :
    Except CtxErr (Nat × Nat) × Context :=
  if c.keep_alive = true ∧ c.open_contexts = 0 then
    (.error .keepAliveNotEntered, c)
  else
    match c.get_class_and_instance role with
    | .error e => (.error e, c)
    | .ok (k, c1) =>
      let im0 := c1.instances k
      let im1 := if im0.is_alive ∧ reset = true then { im0 with inst := none } else im0
      let im2 := if im1.is_alive then im1
                 else { im1 with inst := some c1.next_id, available := true }
      let nid := if im1.is_alive then c1.next_id else c1.next_id + 1
      match im2.request_enter exclusive with
      | .error e =>
        (.error e, { c1 with instances := Function.update c1.instances k im2,
                             next_id := nid })
      | .ok (i, im3) =>
        (.ok (i, k),
         { c1 with
           instances := Function.update c1.instances k im3,
           next_id := nid,
           teardown_order := if k ∈ c1.teardown_order then c1.teardown_order
                             else c1.teardown_order ++ [k] })

/-- A full `Context.request` scope whose body returns normally: the entry half
followed by `InstanceManager.request`'s `finally` block. -/
def Context.request_scope (c : Context) (role : Nat) (reset exclusive : Bool) :
    Except CtxErr (Nat × Context) :=
  match c.request_enter role reset exclusive with
  | (.error e, _) => .error e
  | (.ok (i, k), c1) =>
    .ok (i, { c1 with instances :=
        (Function.update c1.instances k
          ((c1.instances k).request_exit exclusive c1.keep_alive)) })

/-- A full `Context.request` scope whose body raises `e` (context.py:432-446):
the `except BaseException` handler (forced teardown unless the exception is
pytest's `Skipped`), then `raise e from None` propagating through
`InstanceManager.request`'s `finally` block.  On success of the entry half the
result carries the re-raised exception (the very same `e`) and the final
context. -/
def Context.request_scope_raising (c : Context) (role : Nat)
    (reset exclusive : Bool) (reset_on_error : Option Bool) (e : PyExc) :
    Except CtxErr (PyExc × Context) :=
  let roe := reset_on_error.getD c.reset_on_error_default
  match c.request_enter role reset exclusive with
  | (.error err, _) => .error err
  | (.ok (_, k), c1) =>
    let im := c1.instances k
    let im1 := if roe = true ∧ e.isPytestSkipped = false ∧ im.is_alive = true
               then { im with inst := none } else im
    .ok (e, { c1 with instances :=
        (Function.update c1.instances k (im1.request_exit exclusive c1.keep_alive)) })

/-- `Context.__enter__` (context.py:552-554). -/
def Context.enter (c : Context) : Context :=
  { c with open_contexts := c.open_contexts + 1 }

/-- What the outermost `Context.__exit__` does to each machine class it
visits. -/
inductive TeardownEvent where
  | tornDown (cls : Nat)  -- `inst.teardown()` under `keep_alive`
  | warned (cls : Nat)    -- "Found dangling ... instance in this context"
deriving DecidableEq, Repr

/-- The teardown loop of `Context.__exit__` (context.py:558-570), already
applied to `reversed(self._teardown_order)`: visits each class, tears down a
live instance when `keep_alive` and otherwise only warns. -/
def exitTeardownLoop (keep_alive : Bool) :
    List Nat → (Nat → InstanceManager) → List TeardownEvent × (Nat → InstanceManager)
  | [], m => ([], m)
  | cls :: rest, m =>
    let im := m cls
    if im.is_alive then
      if keep_alive then
        let r := exitTeardownLoop keep_alive rest
                   (Function.update m cls { im with inst := none })
        (.tornDown cls :: r.1, r.2)
      else
        let r := exitTeardownLoop keep_alive rest m
        (.warned cls :: r.1, r.2)
    else
      exitTeardownLoop keep_alive rest m

/-- `Context.__exit__` (context.py:556-578).  Only the outermost exit
(`_open_contexts == 1`) runs the teardown loop; the trailing `finally` block
only logs warnings about instances that are still alive and decrements the
reentrancy counter. -/
def Context.exitOnce (c : Context) : List TeardownEvent × Context :=
  if c.open_contexts = 1 then
    let r := exitTeardownLoop c.keep_alive c.teardown_order.reverse c.instances
    (r.1, { c with instances := r.2, open_contexts := c.open_contexts - 1 })
  else
    ([], { c with open_contexts := c.open_contexts - 1 })

/-- `InstanceManager.teardown` on a live instance is exactly the record update
used inside `Context.request_enter`. -/
theorem instance_teardown_of_alive (im : InstanceManager) (h : im.is_alive = true) :
    im.teardown = .ok { im with inst := none } := by
  unfold InstanceManager.teardown
  simp [InstanceManager.is_alive] at h
  simp [h]

/-- `InstanceManager.init` on a dead instance is exactly the record update
used inside `Context.request_enter`. -/
theorem instance_init_of_dead (im : InstanceManager) (fresh : Nat)
    (h : im.is_alive = false) :
    im.init fresh = .ok { im with inst := some fresh, available := true } := by
  unfold InstanceManager.init
  simp [InstanceManager.is_alive] at h
  simp [h]

/-- `InstanceManager.request_enter` only ever raises the two `ContextError`s
of context.py:87-93. -/
theorem instance_request_enter_errors (im : InstanceManager) (exclusive : Bool)
    (e : CtxErr) (h : im.request_enter exclusive = .error e) :
    e = .closedInstance ∨ e = .notAvailable := by
  unfold InstanceManager.request_enter at h
  cases him : im.inst <;> simp [him] at h
  · exact .inl h.symm
  · by_cases ha : im.available = true <;> simp [ha] at h
    exact .inr h.symm

/-- C2: exiting a successfully entered `InstanceManager.request` scope
decrements `current_users`, and the instance is torn down at that exit exactly
when the request was exclusive, or when `current_users` has reached zero and
`keep_alive` is false; otherwise it stays alive. -/
theorem instance_request_exit_spec (im : InstanceManager)
    (exclusive keep_alive : Bool) (h : im.is_alive = true) :
    (im.request_exit exclusive keep_alive).current_users = im.current_users - 1 ∧
    ((im.request_exit exclusive keep_alive).is_alive = false ↔
      (exclusive = true ∨ (keep_alive = false ∧ im.current_users - 1 = 0))) := by
  constructor
  · unfold InstanceManager.request_exit
    dsimp only
    split <;> rfl
  · unfold InstanceManager.request_exit
    dsimp only
    split
    case isTrue hc =>
      exact iff_of_true (by simp [InstanceManager.is_alive]) hc.1
    case isFalse hc =>
      simp only [InstanceManager.is_alive] at h hc ⊢
      refine iff_of_false (by simp [h]) ?_
      intro hcon
      exact hc ⟨hcon, h⟩

/-- Witness for C2 at a concrete manager: one non-exclusive, non-keep-alive
user leaving a live instance with one user tears it down. -/
theorem instance_request_exit_spec_witness :
    ((InstanceManager.mk (some 5) 1 true).request_exit false false).current_users
        = (1 : Int) - 1 ∧
    (((InstanceManager.mk (some 5) 1 true).request_exit false false).is_alive = false ↔
      (false = true ∨ (false = false ∧ (1 : Int) - 1 = 0))) :=
  instance_request_exit_spec (InstanceManager.mk (some 5) 1 true) false false rfl

/-- C1 (amended): while an instance is held by an exclusive `request()`, any
further `InstanceManager.request` — and any `Context.request` for the same
role with `reset` left at its default `false` — raises the availability
`ContextError` immediately, leaving the manager's and context's state
unchanged. -/
theorem exclusive_request_denies_further_requests
    (im0 im1 : InstanceManager) (i : Nat) (c : Context) (role k : Nat)
    (hheld : im0.request_enter true = .ok (i, im1))
    (hrole : c.roles role = some k)
    (hkey : k ∈ c.instance_keys)
    (hinst : c.instances k = im1)
    (hguard : ¬(c.keep_alive = true ∧ c.open_contexts = 0)) :
    im1.is_alive = true ∧
    (∀ exclusive2, im1.request_enter exclusive2 = .error .notAvailable) ∧
    (∀ exclusive2, c.request_enter role false exclusive2 = (.error .notAvailable, c)) ∧
    CtxErr.isContextError .notAvailable = true := by
  obtain ⟨oinst, users, avail⟩ := im0
  unfold InstanceManager.request_enter at hheld
  cases oinst with
  | none => simp at hheld
  | some v =>
    cases avail with
    | false => simp at hheld
    | true =>
      simp only [Bool.not_true, Bool.false_eq_true, if_false, Except.ok.injEq,
        Prod.mk.injEq] at hheld
      obtain ⟨hvi, him1⟩ := hheld
      have halive : im1.is_alive = true := by
        simp [← him1, InstanceManager.is_alive]
      have hdeny : ∀ exclusive2,
          im1.request_enter exclusive2 = .error .notAvailable := by
        intro ex2
        rw [← him1]
        rfl
      refine ⟨halive, hdeny, ?_, rfl⟩
      intro ex2
      unfold Context.request_enter Context.get_class_and_instance
      rw [if_neg hguard, hrole]
      simp only [hkey, ite_true, hinst, halive, Bool.false_eq_true, and_false,
        ite_false, if_true, hdeny ex2]
      rw [← hinst, Function.update_eq_self]

/-- Context with one role (0 ↦ machine class 0) and nothing initialized, used
to exercise exclusive requests on concrete inputs. -/
def ctxExcl : Context :=
  { roles := fun r => if r = 0 then some 0 else none,
    keep_alive := false, reset_on_error_default := false,
    open_contexts := 0, teardown_order := [],
    instances := fun _ => InstanceManager.initial,
    instance_keys := [], next_id := 0 }

/-- Counterexample to C1 as stated: with machine class 0 alive and held by an
exclusive `request()`, a further request routed through `Context.request` with
`reset=true` does *not* raise a `ContextError` — it tears the held instance
down, re-initializes it and succeeds. -/
theorem exclusive_request_reset_counterexample :
    (ctxExcl.request_enter 0 false true).1 = .ok (0, 0) ∧
    ((ctxExcl.request_enter 0 false true).2.instances 0).is_alive = true ∧
    ((ctxExcl.request_enter 0 false true).2.instances 0).available = false ∧
    ((ctxExcl.request_enter 0 false true).2.request_scope 0 true false).isOk = true := by
  refine ⟨rfl, rfl, rfl, rfl⟩

/-- Witness for C1 (amended) at concrete inputs: after an exclusive request on
`ctxExcl`'s machine class 0, both the direct and the `Context`-routed
(`reset=false`) further request fail with the availability error. -/
theorem exclusive_request_denies_further_requests_witness :
    ((ctxExcl.request_enter 0 false true).2.instances 0).is_alive = true ∧
    (∀ exclusive2, ((ctxExcl.request_enter 0 false true).2.instances 0).request_enter
        exclusive2 = .error .notAvailable) ∧
    (∀ exclusive2, (ctxExcl.request_enter 0 false true).2.request_enter 0 false
        exclusive2 = (.error .notAvailable, (ctxExcl.request_enter 0 false true).2)) ∧
    CtxErr.isContextError .notAvailable = true :=
  exclusive_request_denies_further_requests
    (InstanceManager.mk (some 0) 0 true) (InstanceManager.mk (some 0) 1 false) 0
    (ctxExcl.request_enter 0 false true).2 0 0
    rfl rfl (by decide) rfl (by intro h; exact absurd h.1 (by decide))

/-- C10: a `keep_alive` context that was never entered rejects every
`request()` with a `ContextError`, before resolving the role (the error is
raised even for an unregistered role) and without touching any state; a
context with `keep_alive=false` is never subject to this check. -/
theorem keep_alive_context_requires_entry (c : Context) (role : Nat)
    (hka : c.keep_alive = true) (hopen : c.open_contexts = 0) :
    (∀ reset exclusive,
        c.request_enter role reset exclusive = (.error .keepAliveNotEntered, c)) ∧
    CtxErr.isContextError .keepAliveNotEntered = true ∧
    (∀ (c2 : Context) (role2 : Nat) (reset exclusive : Bool), c2.keep_alive = false →
        (c2.request_enter role2 reset exclusive).1 ≠ .error .keepAliveNotEntered) := by
  refine ⟨?_, rfl, ?_⟩
  · intro reset exclusive
    unfold Context.request_enter
    simp [hka, hopen]
  · intro c2 role2 reset exclusive hka2
    unfold Context.request_enter
    simp only [hka2, Bool.false_eq_true, false_and, if_false]
    cases hg : c2.get_class_and_instance role2 with
    | error e =>
      unfold Context.get_class_and_instance at hg
      cases hr : c2.roles role2 <;> simp [hr] at hg
      by_cases hk : role2 ∈ c2.instance_keys <;> simp [hk] at hg
      simp [← hg]
    | ok v =>
      obtain ⟨k, c1⟩ := v
      dsimp only
      split
      next e heq =>
        rcases instance_request_enter_errors _ exclusive e heq with h | h <;>
          simp [h]
      next i im3 heq =>
        simp

/-- `ctxExcl` reconfigured with `keep_alive=true`, never entered. -/
def ctxKeepAlive : Context :=
  { ctxExcl with keep_alive := true }

/-- Witness for C10 at a concrete context and an unregistered role. -/
theorem keep_alive_context_requires_entry_witness :
    (∀ reset exclusive, ctxKeepAlive.request_enter 7 reset exclusive
        = (.error .keepAliveNotEntered, ctxKeepAlive)) ∧
    CtxErr.isContextError .keepAliveNotEntered = true ∧
    (∀ (c2 : Context) (role2 : Nat) (reset exclusive : Bool), c2.keep_alive = false →
        (c2.request_enter role2 reset exclusive).1 ≠ .error .keepAliveNotEntered) :=
  keep_alive_context_requires_entry ctxKeepAlive 7 rfl rfl

/-- A `Context.request` scope over a role whose manager holds no instance and
has no users: a fresh instance `c.next_id` is initialized and handed to the
body, and at exit it survives exactly when the context keeps instances
alive. -/
theorem request_scope_fresh (c : Context) (role k : Nat)
    (hguard : ¬(c.keep_alive = true ∧ c.open_contexts = 0))
    (hrole : c.roles role = some k)
    (hkey : k ∈ c.instance_keys)
    (hto : k ∈ c.teardown_order)
    (hdead : (c.instances k).inst = none)
    (husers : (c.instances k).current_users = 0) :
    c.request_scope role false false
      = .ok (c.next_id,
          { c with
            instances := Function.update c.instances k
              ⟨if c.keep_alive = true then some c.next_id else none, 0, true⟩,
            next_id := c.next_id + 1 }) := by
  unfold Context.request_scope Context.request_enter Context.get_class_and_instance
    InstanceManager.request_enter InstanceManager.request_exit InstanceManager.is_alive
  rw [if_neg hguard, hrole]
  cases hka : c.keep_alive <;>
    simp [hka, hkey, hto, hdead, husers, Function.update_idem]

/-- A `Context.request` scope over a role whose manager is alive (instance
`n`), available and without users, on a `keep_alive` context: the existing
instance is reused and survives the exit. -/
theorem request_scope_alive (c : Context) (role k n : Nat)
    (hguard : ¬(c.keep_alive = true ∧ c.open_contexts = 0))
    (hrole : c.roles role = some k)
    (hkey : k ∈ c.instance_keys)
    (hto : k ∈ c.teardown_order)
    (halive : (c.instances k).inst = some n)
    (husers : (c.instances k).current_users = 0)
    (havail : (c.instances k).available = true)
    (hka : c.keep_alive = true) :
    c.request_scope role false false
      = .ok (n, { c with
            instances := Function.update c.instances k ⟨some n, 0, true⟩ }) := by
  unfold Context.request_scope Context.request_enter Context.get_class_and_instance
    InstanceManager.request_enter InstanceManager.request_exit InstanceManager.is_alive
  rw [if_neg hguard, hrole]
  simp [hkey, hto, halive, husers, havail, hka, Function.update_idem]

/-- A `Context.request` scope with `reset=true` over a role whose manager is
alive: the held instance is torn down first and a fresh instance `c.next_id`
is initialized (keep-alive context, no other users). -/
theorem request_scope_reset_alive (c : Context) (role k n : Nat)
    (hguard : ¬(c.keep_alive = true ∧ c.open_contexts = 0))
    (hrole : c.roles role = some k)
    (hkey : k ∈ c.instance_keys)
    (hto : k ∈ c.teardown_order)
    (halive : (c.instances k).inst = some n)
    (husers : (c.instances k).current_users = 0)
    (hka : c.keep_alive = true) :
    c.request_scope role true false
      = .ok (c.next_id,
          { c with
            instances := Function.update c.instances k ⟨some c.next_id, 0, true⟩,
            next_id := c.next_id + 1 }) := by
  unfold Context.request_scope Context.request_enter Context.get_class_and_instance
    InstanceManager.request_enter InstanceManager.request_exit InstanceManager.is_alive
  rw [if_neg hguard, hrole]
  simp [hkey, hto, halive, husers, hka, Function.update_idem]

/-- C3: with `keep_alive=false`, two sequential non-overlapping
`Context.request(role)` calls produce two distinct underlying instances; with
`keep_alive=true` (entered context), the second call returns the same
instance, unless `reset=true` is passed, in which case the alive instance is
replaced by a freshly initialized one. -/
theorem context_request_idempotence (c : Context) (role k : Nat)
    (hrole : c.roles role = some k)
    (hkey : k ∈ c.instance_keys)
    (hto : k ∈ c.teardown_order)
    (hdead : (c.instances k).inst = none)
    (husers : (c.instances k).current_users = 0) :
    (c.keep_alive = false →
      ∃ i1 c1 i2 c2, c.request_scope role false false = .ok (i1, c1) ∧
        c1.request_scope role false false = .ok (i2, c2) ∧ i1 ≠ i2) ∧
    (c.keep_alive = true → c.open_contexts ≠ 0 →
      ∃ i1 c1 i2 c2, c.request_scope role false false = .ok (i1, c1) ∧
        c1.request_scope role false false = .ok (i2, c2) ∧ i2 = i1 ∧
        (c1.instances k).is_alive = true ∧
        ∃ i3 c3, c1.request_scope role true false = .ok (i3, c3) ∧ i3 ≠ i1) := by
  constructor
  · intro hka
    have hguard : ¬(c.keep_alive = true ∧ c.open_contexts = 0) := by simp [hka]
    have h1 := request_scope_fresh c role k hguard hrole hkey hto hdead husers
    rw [hka] at h1
    simp only [Bool.false_eq_true, if_false] at h1
    have h2 := request_scope_fresh
      { c with keep_alive := false,
               instances := Function.update c.instances k ⟨none, 0, true⟩,
               next_id := c.next_id + 1 } role k
      (by simp) hrole hkey hto
      (by simp [Function.update_same]) (by simp [Function.update_same])
    exact ⟨c.next_id, _, c.next_id + 1, _, h1, h2, by omega⟩
  · intro hka hopen
    have hguard : ¬(c.keep_alive = true ∧ c.open_contexts = 0) := by
      intro h
      exact hopen h.2
    have h1 := request_scope_fresh c role k hguard hrole hkey hto hdead husers
    rw [hka] at h1
    simp only [if_true] at h1
    have h2 := request_scope_alive
      { c with keep_alive := true,
               instances := Function.update c.instances k ⟨some c.next_id, 0, true⟩,
               next_id := c.next_id + 1 } role k c.next_id
      (fun h => hopen h.2) hrole hkey hto
      (by simp [Function.update_same]) (by simp [Function.update_same])
      (by simp [Function.update_same]) rfl
    have h3 := request_scope_reset_alive
      { c with keep_alive := true,
               instances := Function.update c.instances k ⟨some c.next_id, 0, true⟩,
               next_id := c.next_id + 1 } role k c.next_id
      (fun h => hopen h.2) hrole hkey hto
      (by simp [Function.update_same]) (by simp [Function.update_same]) rfl
    refine ⟨c.next_id, _, c.next_id, _, h1, h2, rfl, ?_, c.next_id + 1, _, h3, by omega⟩
    simp [Function.update_same, InstanceManager.is_alive]

/-- A one-role context (entered once, nothing initialized) parameterized by
its `keep_alive` flag, for exercising sequential requests. -/
def ctxSeq (ka : Bool) : Context :=
  { roles := fun r => if r = 0 then some 0 else none,
    keep_alive := ka, reset_on_error_default := false,
    open_contexts := 1, teardown_order := [0],
    instances := fun _ => InstanceManager.initial,
    instance_keys := [0], next_id := 0 }

/-- Witness for C3 on concrete contexts, for both `keep_alive` flavours. -/
theorem context_request_idempotence_witness :
    (∃ i1 c1 i2 c2, (ctxSeq false).request_scope 0 false false = .ok (i1, c1) ∧
        c1.request_scope 0 false false = .ok (i2, c2) ∧ i1 ≠ i2) ∧
    (∃ i1 c1 i2 c2, (ctxSeq true).request_scope 0 false false = .ok (i1, c1) ∧
        c1.request_scope 0 false false = .ok (i2, c2) ∧ i2 = i1 ∧
        (c1.instances 0).is_alive = true ∧
        ∃ i3 c3, c1.request_scope 0 true false = .ok (i3, c3) ∧ i3 ≠ i1) :=
  ⟨(context_request_idempotence (ctxSeq false) 0 0 rfl (by decide) (by decide)
      rfl rfl).1 rfl,
   (context_request_idempotence (ctxSeq true) 0 0 rfl (by decide) (by decide)
      rfl rfl).2 rfl (by decide)⟩

/-- C4 (amended): if any exception escapes a `Context.request` scope with
`reset_on_error=true`, the context forces teardown of the still-alive
instance regardless of other users and re-raises the original exception
unmodified — except pytest's `Skipped` exception, for which `reset_on_error`
is ignored (a warning is logged) and the call behaves exactly as if
`reset_on_error` were `false`, still re-raising the exception. -/
theorem context_reset_on_error_spec (c : Context) (role k n : Nat)
    (exclusive : Bool) (e : PyExc)
    (hguard : ¬(c.keep_alive = true ∧ c.open_contexts = 0))
    (hrole : c.roles role = some k)
    (hkey : k ∈ c.instance_keys)
    (hto : k ∈ c.teardown_order)
    (halive : (c.instances k).inst = some n)
    (havail : (c.instances k).available = true) :
    ((c.request_scope_raising role false exclusive (some true) e).map Prod.fst
        = .ok e) ∧
    (e.isPytestSkipped = false →
      ∀ e2 c2, c.request_scope_raising role false exclusive (some true) e
          = .ok (e2, c2) → (c2.instances k).is_alive = false) ∧
    (e.isPytestSkipped = true →
      c.request_scope_raising role false exclusive (some true) e
        = c.request_scope_raising role false exclusive (some false) e) := by
  have henter : c.request_enter role false exclusive
      = (.ok (n, k), { c with instances := (Function.update c.instances k
          ⟨some n, (c.instances k).current_users + 1,
           if exclusive = true then false else true⟩) }) := by
    unfold Context.request_enter Context.get_class_and_instance
      InstanceManager.request_enter InstanceManager.is_alive
    rw [if_neg hguard, hrole]
    cases exclusive <;> simp [hkey, hto, halive, havail]
  refine ⟨?_, ?_, ?_⟩
  · unfold Context.request_scope_raising
    rw [henter]
    rfl
  · intro hsk e2 c2 heq
    unfold Context.request_scope_raising at heq
    rw [henter] at heq
    simp only [Option.getD_some, hsk, Function.update_same, InstanceManager.is_alive,
      Option.isSome_some, and_true, and_self, ite_true, Except.ok.injEq,
      Prod.mk.injEq] at heq
    rw [← heq.2]
    unfold InstanceManager.request_exit
    simp [Function.update_same, InstanceManager.is_alive]
  · intro hsk
    unfold Context.request_scope_raising
    rw [henter]
    simp [hsk]

/-- A `keep_alive` context whose single machine class 0 is alive with one
active (outer) user. -/
def ctxSkip : Context :=
  { roles := fun r => if r = 0 then some 0 else none,
    keep_alive := true, reset_on_error_default := false,
    open_contexts := 1, teardown_order := [0],
    instances := fun _ => ⟨some 0, 1, true⟩,
    instance_keys := [0], next_id := 1 }

/-- Counterexample to C4 as stated: a pytest `Skipped` exception escaping a
`reset_on_error=true` scope is re-raised, but the instance is *not* torn down
(it stays alive), contradicting "for every exception without
exception-type-specific carve-outs". -/
theorem reset_on_error_skipped_counterexample :
    (ctxSkip.request_scope_raising 0 false false (some true) ⟨0, true⟩).map
        (fun p => (p.1, (p.2.instances 0).is_alive)) = .ok (⟨0, true⟩, true) := by
  rfl

/-- Witness for C4 (amended) with an ordinary (non-`Skipped`) exception on a
concrete context with another active user. -/
theorem context_reset_on_error_spec_witness :
    ((ctxSkip.request_scope_raising 0 false false (some true) ⟨3, false⟩).map
        Prod.fst = .ok ⟨3, false⟩) ∧
    ((⟨3, false⟩ : PyExc).isPytestSkipped = false →
      ∀ e2 c2, ctxSkip.request_scope_raising 0 false false (some true) ⟨3, false⟩
          = .ok (e2, c2) → (c2.instances 0).is_alive = false) ∧
    ((⟨3, false⟩ : PyExc).isPytestSkipped = true →
      ctxSkip.request_scope_raising 0 false false (some true) ⟨3, false⟩
        = ctxSkip.request_scope_raising 0 false false (some false) ⟨3, false⟩) :=
  context_reset_on_error_spec ctxSkip 0 0 0 false ⟨3, false⟩
    (by decide) rfl (by decide) (by decide) rfl rfl

/-- The `__exit__` teardown loop, specified over a duplicate-free visit list:
the events are exactly the still-alive classes in visit order (`tornDown`
under `keep_alive`, `warned` otherwise), and the final manager map clears a
visited alive instance exactly when `keep_alive`. -/
theorem exitTeardownLoop_spec (ka : Bool) (L : List Nat)
    (m : Nat → InstanceManager) (hnd : L.Nodup) :
    (exitTeardownLoop ka L m).1
      = (L.filter (fun cls => (m cls).is_alive)).map
          (fun cls => if ka then TeardownEvent.tornDown cls
                      else TeardownEvent.warned cls) ∧
    ∀ x, (exitTeardownLoop ka L m).2 x
      = if ka = true ∧ x ∈ L ∧ (m x).is_alive = true
        then { m x with inst := none } else m x := by
  induction L generalizing m with
  | nil => simp [exitTeardownLoop]
  | cons cls rest ih =>
    obtain ⟨hn, hnd'⟩ := List.nodup_cons.mp hnd
    by_cases halive : (m cls).is_alive = true
    · cases ka with
      | true =>
        have hm' : ∀ x ∈ rest,
            ((Function.update m cls { m cls with inst := none }) x) = m x := by
          intro x hx
          exact Function.update_noteq (ne_of_mem_of_not_mem hx hn) _ m
        obtain ⟨ihtr, ihm⟩ :=
          ih (Function.update m cls { m cls with inst := none }) hnd'
        constructor
        · unfold exitTeardownLoop
          rw [if_pos halive, if_pos rfl]
          dsimp only
          rw [ihtr, List.filter_cons_of_pos (by simpa using halive), List.map_cons,
            if_pos rfl]
          congr 2
          exact List.filter_congr (fun x hx => by rw [hm' x hx])
        · intro x
          unfold exitTeardownLoop
          rw [if_pos halive, if_pos rfl]
          dsimp only
          rw [ihm x]
          by_cases hx : x = cls
          · subst hx
            simp [Function.update_same, hn, halive]
          · rw [Function.update_noteq hx]
            simp [hx]
      | false =>
        obtain ⟨ihtr, ihm⟩ := ih m hnd'
        constructor
        · unfold exitTeardownLoop
          rw [if_pos halive, if_neg (by simp)]
          dsimp only
          rw [ihtr, List.filter_cons_of_pos (by simpa using halive), List.map_cons]
          simp
        · intro x
          unfold exitTeardownLoop
          rw [if_pos halive, if_neg (by simp)]
          dsimp only
          rw [ihm x]
          simp
    · obtain ⟨ihtr, ihm⟩ := ih m hnd'
      constructor
      · unfold exitTeardownLoop
        rw [if_neg halive]
        rw [ihtr, List.filter_cons_of_neg (by simpa using halive)]
      · intro x
        unfold exitTeardownLoop
        rw [if_neg halive]
        rw [ihm x]
        by_cases hx : x = cls
        · subst hx
          simp [halive]
        · simp [hx]

/-- C5: only the outermost `Context.__exit__` performs cleanup; it visits
every machine class in reverse `teardown_order`, tearing down each still-alive
instance when `keep_alive` is true and only warning (leaving it alive) when
`keep_alive` is false; inner exits only decrement the reentrancy counter. -/
theorem context_exit_spec (c : Context) (hnd : c.teardown_order.Nodup) :
    (c.open_contexts ≠ 1 →
      c.exitOnce = ([], { c with open_contexts := c.open_contexts - 1 })) ∧
    (c.open_contexts = 1 →
      (c.exitOnce).1
        = (c.teardown_order.reverse.filter
            (fun cls => (c.instances cls).is_alive)).map
            (fun cls => if c.keep_alive then TeardownEvent.tornDown cls
                        else TeardownEvent.warned cls) ∧
      (∀ x, (c.exitOnce).2.instances x
        = if c.keep_alive = true ∧ x ∈ c.teardown_order
              ∧ (c.instances x).is_alive = true
          then { c.instances x with inst := none } else c.instances x) ∧
      (c.exitOnce).2.open_contexts = 0) := by
  constructor
  · intro hopen
    unfold Context.exitOnce
    rw [if_neg hopen]
  · intro hopen
    obtain ⟨htr, hm⟩ := exitTeardownLoop_spec c.keep_alive c.teardown_order.reverse
      c.instances (List.nodup_reverse.mpr hnd)
    refine ⟨?_, ?_, ?_⟩
    · unfold Context.exitOnce
      rw [if_pos hopen]
      exact htr
    · intro x
      unfold Context.exitOnce
      rw [if_pos hopen]
      dsimp only
      rw [hm x]
      simp [List.mem_reverse]
    · unfold Context.exitOnce
      rw [if_pos hopen]
      simp [hopen]

/-- A twice-used context (classes 1 then 2, both alive, no users) at the
outermost exit, with `keep_alive=true`. -/
def ctxExit : Context :=
  { roles := fun _ => none, keep_alive := true, reset_on_error_default := false,
    open_contexts := 1, teardown_order := [1, 2],
    instances := fun x => if x = 1 ∨ x = 2 then ⟨some x, 0, true⟩
                          else InstanceManager.initial,
    instance_keys := [1, 2], next_id := 3 }

/-- Witness for C5: an inner exit only decrements the counter; the outermost
exit tears down class 2 before class 1 (reverse first-use order) and ends with
the counter at zero. -/
theorem context_exit_spec_witness :
    ({ ctxExit with open_contexts := 5 } : Context).exitOnce
        = ([], { ctxExit with open_contexts := 5 - 1 }) ∧
    ctxExit.exitOnce.1 = [TeardownEvent.tornDown 2, TeardownEvent.tornDown 1] ∧
    ctxExit.exitOnce.2.open_contexts = 0 := by
  refine ⟨?_, ?_, ?_⟩
  · exact (context_exit_spec { ctxExit with open_contexts := 5 }
      (by decide)).1 (by decide)
  · rw [(context_exit_spec ctxExit (by decide)).2 rfl |>.1]
    rfl
  · exact ((context_exit_spec ctxExit (by decide)).2 rfl).2.2

/-! ## The POSIX command-execution protocol (`rbot/channel/common.py`) -/

/-- Errors of the channel layer used by `exec`/`exec0`:
`rbot.exceptions.InvalidRetcodeException` (carrying the offending response)
and `rbot.exceptions.CommandFailureException` (carrying command and
output). -/
inductive ChanErr where
  | invalidRetcode (retcode_str : String)
  | commandFailure (cmd : String) (out : String)
deriving DecidableEq, Repr

/-- Value of a non-empty all-digit character run, as Python `int()` reads
it. -/
def digitsVal? : List Char → Option Nat
  | [] => none
  | l =>
    if l.all Char.isDigit then
      some (l.foldl (fun a c => a * 10 + (c.toNat - 48)) 0)
    else none

/-- Python `int(str)` as called in `posix_fetch_return_code`
(common.py:40-41): surrounding whitespace is stripped, then an optional sign
precedes one or more decimal digits; anything else raises `ValueError`.
(Python additionally accepts underscore digit-grouping, which cannot occur in
a retcode response.) -/
def pyInt? (s : String) : Option Int :=
  match ((s.toList.dropWhile Char.isWhitespace).reverse.dropWhile
      Char.isWhitespace).reverse with
  | [] => none
  | c :: rest =>
    if c = Char.ofNat 43 then (digitsVal? rest).map (fun n => (n : Int))
    else if c = Char.ofNat 45 then (digitsVal? rest).map (fun n => -(n : Int))
    else (digitsVal? (c :: rest)).map (fun n => (n : Int))

/-- `posix_fetch_return_code` (common.py:37-43), as a function of the text the
channel reads back up to the prompt after sending `echo $?`: parse it as an
integer, raising `InvalidRetcodeException` on anything non-integer. -/
def posix_fetch_return_code (retcode_str : String) : Except ChanErr Int :=
  match pyInt? retcode_str with
  | some n => .ok n
  | none => .error (.invalidRetcode retcode_str)

/-- The characters `shlex.quote` (Python stdlib) leaves unquoted: ASCII word
characters plus `@ % + = : , .`, slash and hyphen. -/
def shlexSafeChar (c : Char) : Bool :=
  c.isAlphanum || ("_@%+=:,./-".toList.contains c)

/-- A single-quote character as a string. -/
def squote : String := String.singleton (Char.ofNat 39)

/-- Python `shlex.quote`: empty strings become a quoted empty string, strings
of safe characters pass through, anything else is single-quoted with each
embedded single quote replaced by quote, double-quoted quote, quote. -/
def shlexQuote (s : String) : String :=
  if s = "" then squote ++ squote
  else if s.toList.all shlexSafeChar then s
  else
    squote
      ++ String.join (s.toList.map (fun c =>
           if c = Char.ofNat 39 then
             squote ++ "\x22" ++ squote ++ "\x22" ++ squote
           else String.singleton c))
      ++ squote

/-- `escape` (common.py:64-74) on string arguments: `shlex.quote` each and
join with spaces.  (The source additionally UTF-8-decodes `bytes` arguments
before quoting, which this embedding does not distinguish.) -/
def escape (args : List String) : String :=
  String.intercalate " " (args.map shlexQuote)

/-- Modelled from the spec: the `Channel` class of `rbot/channel/channel.py`
(not under src/) provides `sendline` and `read_until_prompt`.  Per spec §4.1
a `sendline(cmd, read_back=True)` followed by `read_until_prompt()` sends one
command line and returns all output up to the next prompt; we collapse the
pair into one oracle call mapping the command line to (output, exit status of
the command), the status being what the remote shell then holds in `$?`. -/
structure RemoteShell where
  run : String → String × Int

/-- Modelled from the spec: the retcode probe (spec §6, "issue a fixed
retcode-probing command (e.g., echo the last exit status)") responds with the
last exit status followed by a newline. -/
def probeResponse (lastStatus : Int) : String :=
  toString lastStatus ++ "\n"

/-- `PosixChannel.exec` (common.py:84-91): escape the command, send it and
read all output up to the prompt, then fetch the return code by probing
`echo $?` and parsing its response. -/
def PosixChannel.exec (sh : RemoteShell) (args : List String) :
    Except ChanErr (Int × String) :=
  let cmd := escape args
  let p := sh.run cmd
  match posix_fetch_return_code (probeResponse p.2) with
  | .ok n => .ok (n, p.1)
  | .error e => .error e

/-- `PosixChannel.exec0` (common.py:93-97): `exec`, then raise
`CommandFailureException` when the return code is non-zero. -/
def PosixChannel.exec0 (sh : RemoteShell) (args : List String) :
    Except ChanErr String :=
  match PosixChannel.exec sh args with
  | .error e => .error e
  | .ok (retcode, out) =>
    if retcode ≠ 0 then .error (.commandFailure (escape args) out)
    else .ok out

set_option maxRecDepth 10000 in
/-- Parsing the probe response round-trips for every status in `[0, 255]`. -/
theorem pyInt_natRepr (n : Nat) (h : n ≤ 255) :
    pyInt? (toString n ++ "\n") = some (n : Int) := by
  have hall : ∀ m : Fin 256, pyInt? (toString m.val ++ "\n") = some (m.val : Int) := by
    decide
  exact hall ⟨n, Nat.lt_succ_of_le h⟩

/-- Integer version of the probe-response round-trip. -/
theorem pyInt_intRepr (i : Int) (h0 : 0 ≤ i) (h255 : i ≤ 255) :
    pyInt? (toString i ++ "\n") = some i := by
  obtain ⟨n, rfl⟩ := Int.eq_ofNat_of_zero_le h0
  have hrepr : (toString (n : Int) : String) = toString n := rfl
  rw [hrepr, pyInt_natRepr n (by exact_mod_cast h255)]

/-- C6: `exec` sends the escaped command, reads output to the prompt, probes
the last exit status and parses it as an integer (`InvalidRetcodeException`
for any non-integer probe response); `exec("true")` returns retcode 0,
`exec("false")` a nonzero retcode; `exec0` raises `CommandFailure` exactly
when the retcode is nonzero; a probe response `N` + newline with
`N ∈ [0,255]` parses to `N`. -/
theorem posix_exec_protocol (sh : RemoteShell) (outT outF : String) (rcF : Int)
    (htrue : sh.run "true" = (outT, 0))
    (hfalse : sh.run "false" = (outF, rcF))
    (hrcF0 : rcF ≠ 0) (hrcFlo : 0 ≤ rcF) (hrcFhi : rcF ≤ 255) :
    (∀ resp, pyInt? resp = none →
      posix_fetch_return_code resp = .error (.invalidRetcode resp)) ∧
    PosixChannel.exec sh ["true"] = .ok (0, outT) ∧
    PosixChannel.exec sh ["false"] = .ok (rcF, outF) ∧
    PosixChannel.exec0 sh ["false"] = .error (.commandFailure "false" outF) ∧
    (∀ args rc out, PosixChannel.exec sh args = .ok (rc, out) →
      (rc = 0 → PosixChannel.exec0 sh args = .ok out) ∧
      (rc ≠ 0 → PosixChannel.exec0 sh args
          = .error (.commandFailure (escape args) out))) ∧
    (∀ m : Fin 256, posix_fetch_return_code (toString m.val ++ "\n")
        = .ok (m.val : Int)) := by
  have efalse : escape ["false"] = "false" := rfl
  have hexecF : PosixChannel.exec sh ["false"] = .ok (rcF, outF) := by
    unfold PosixChannel.exec
    rw [efalse]
    dsimp only
    rw [hfalse]
    unfold posix_fetch_return_code probeResponse
    rw [pyInt_intRepr rcF hrcFlo hrcFhi]
  refine ⟨?_, ?_, hexecF, ?_, ?_, ?_⟩
  · intro resp hresp
    unfold posix_fetch_return_code
    rw [hresp]
  · unfold PosixChannel.exec
    rw [show escape ["true"] = "true" from rfl]
    dsimp only
    rw [htrue]
    rfl
  · unfold PosixChannel.exec0
    rw [hexecF]
    dsimp only
    rw [if_pos hrcF0, efalse]
  · intro args rc out hexec
    unfold PosixChannel.exec0
    rw [hexec]
    dsimp only
    constructor
    · intro h0
      rw [if_neg (by simp [h0])]
    · intro hne
      rw [if_pos hne]
  · intro m
    unfold posix_fetch_return_code
    rw [pyInt_natRepr m.val m.is_le]

/-- A concrete remote shell implementing `true`, `false` and command-not-found
for everything else. -/
def shPosix : RemoteShell :=
  ⟨fun c => if c = "true" then ("", 0)
            else if c = "false" then ("", 1) else ("", 127)⟩

/-- Witness for C6 against the concrete remote shell. -/
theorem posix_exec_protocol_witness :
    (∀ resp, pyInt? resp = none →
      posix_fetch_return_code resp = .error (.invalidRetcode resp)) ∧
    PosixChannel.exec shPosix ["true"] = .ok (0, "") ∧
    PosixChannel.exec shPosix ["false"] = .ok (1, "") ∧
    PosixChannel.exec0 shPosix ["false"] = .error (.commandFailure "false" "") ∧
    (∀ args rc out, PosixChannel.exec shPosix args = .ok (rc, out) →
      (rc = 0 → PosixChannel.exec0 shPosix args = .ok out) ∧
      (rc ≠ 0 → PosixChannel.exec0 shPosix args
          = .error (.commandFailure (escape args) out))) ∧
    (∀ m : Fin 256, posix_fetch_return_code (toString m.val ++ "\n")
        = .ok (m.val : Int)) :=
  posix_exec_protocol shPosix "" "" 1 rfl rfl
    (by decide) (by decide) (by decide)

/-! ## The shell handshake (`wait_for_shell`) -/

/-- Outcome of one `ch.expect("RBOTLOGIN", timeout=...)` attempt: the marker
was observed, the call raised `TimeoutError`, or it raised some other
exception `e`. -/
inductive ExpectOutcome where
  | found
  | timedOut
  | failed (e : Nat)
deriving DecidableEq, Repr

/-- The channel environment for the handshake: the outcome of the n-th
`expect` attempt. -/
structure HandshakeEnv where
  expect : Nat → ExpectOutcome

/-- Result of running the handshake loop with bounded fuel, carrying the
trace of `(command sent, expect timeout)` per attempt; `fuelOut` means the
(unbounded) Python loop is still retrying. -/
inductive HandshakeResult where
  | ok (sent : List (String × ℚ))
  | raised (e : Nat) (sent : List (String × ℚ))
  | fuelOut (sent : List (String × ℚ))
deriving DecidableEq, Repr

/-- The attempt trace of a handshake run. -/
def HandshakeResult.sent : HandshakeResult → List (String × ℚ)
  | .ok s => s
  | .raised _ s => s
  | .fuelOut s => s

/-- Record one more attempt at the front of a result's trace. -/
def HandshakeResult.push (step : String × ℚ) : HandshakeResult → HandshakeResult
  | .ok sent => .ok (step :: sent)
  | .raised e sent => .raised e (step :: sent)
  | .fuelOut sent => .fuelOut (step :: sent)

/-- The loop of `wait_for_shell` (channel/common.py:26-34 and
machine/shell/linux/util.py:31-48, identical): each iteration sends
`echo RBOT\LOGIN` and expects the marker `RBOTLOGIN` with the current
timeout; on `TimeoutError` it retries with the timeout escalated to 3.0; the
marker ends the loop; any other exception propagates. -/
def wait_for_shell_go (env : HandshakeEnv) (timeout : ℚ) (n : Nat) :
    Nat → HandshakeResult
  | 0 => .fuelOut []
  | fuel + 1 =>
    let step := ("echo RBOT\\LOGIN", timeout)
    match env.expect n with
    | .found => .ok [step]
    | .failed e => .raised e [step]
    | .timedOut => (wait_for_shell_go env 3.0 (n + 1) fuel).push step

/-- `wait_for_shell`: the loop entered with the initial timeout 0.2. -/
def wait_for_shell (env : HandshakeEnv) (fuel : Nat) : HandshakeResult :=
  wait_for_shell_go env 0.2 0 fuel

/-- The spec's description of the handshake attempt trace: the tagged echo
command on every attempt, with timeout 0.2 on the first attempt and 3.0 on
every subsequent one. -/
def handshakeSpecTrace : Nat → List (String × ℚ)
  | 0 => []
  | m + 1 =>
    ("echo RBOT\\LOGIN", 0.2) :: List.replicate m ("echo RBOT\\LOGIN", 3.0)

/-- The pushed trace of a handshake result. -/
theorem handshake_push_sent (step : String × ℚ) (r : HandshakeResult) :
    (r.push step).sent = step :: r.sent := by
  cases r <;> rfl

/-- If the marker first appears on attempt `n + k` (all earlier attempts from
`n` on timing out) and there is fuel to get there, the handshake loop returns
successfully after sending `k + 1` commands: the first with the entry timeout
`t`, all later ones with timeout 3.0. -/
theorem wait_go_found (env : HandshakeEnv) (k : Nat) :
    ∀ (t : ℚ) (n fuel : Nat),
      (∀ j, j < k → env.expect (n + j) = .timedOut) →
      env.expect (n + k) = .found → k < fuel →
      wait_for_shell_go env t n fuel
        = .ok (("echo RBOT\\LOGIN", t)
            :: List.replicate k ("echo RBOT\\LOGIN", 3.0)) := by
  induction k with
  | zero =>
    intro t n fuel hq hf hlt
    cases fuel with
    | zero => omega
    | succ f =>
      unfold wait_for_shell_go
      rw [show n + 0 = n from rfl] at hf
      rw [hf]
      rfl
  | succ k ih =>
    intro t n fuel hq hf hlt
    cases fuel with
    | zero => omega
    | succ f =>
      unfold wait_for_shell_go
      have h0 : env.expect n = .timedOut := by simpa using hq 0 (by omega)
      rw [h0]
      have hinner := ih 3.0 (n + 1) f
        (fun j hj => by
          rw [show n + 1 + j = n + (j + 1) from by omega]
          exact hq (j + 1) (by omega))
        (by rw [show n + 1 + k = n + (k + 1) from by omega]; exact hf)
        (by omega)
      rw [hinner, List.replicate_succ]
      rfl

/-- If attempt `n + k` raises a non-`TimeoutError` exception `e` (all earlier
attempts from `n` on timing out), the loop propagates `e` after `k + 1`
attempts. -/
theorem wait_go_failed (env : HandshakeEnv) (k : Nat) :
    ∀ (t : ℚ) (n fuel : Nat) (e : Nat),
      (∀ j, j < k → env.expect (n + j) = .timedOut) →
      env.expect (n + k) = .failed e → k < fuel →
      wait_for_shell_go env t n fuel
        = .raised e (("echo RBOT\\LOGIN", t)
            :: List.replicate k ("echo RBOT\\LOGIN", 3.0)) := by
  induction k with
  | zero =>
    intro t n fuel e hq hf hlt
    cases fuel with
    | zero => omega
    | succ f =>
      unfold wait_for_shell_go
      rw [show n + 0 = n from rfl] at hf
      rw [hf]
      rfl
  | succ k ih =>
    intro t n fuel e hq hf hlt
    cases fuel with
    | zero => omega
    | succ f =>
      unfold wait_for_shell_go
      have h0 : env.expect n = .timedOut := by simpa using hq 0 (by omega)
      rw [h0]
      have hinner := ih 3.0 (n + 1) f e
        (fun j hj => by
          rw [show n + 1 + j = n + (j + 1) from by omega]
          exact hq (j + 1) (by omega))
        (by rw [show n + 1 + k = n + (k + 1) from by omega]; exact hf)
        (by omega)
      rw [hinner, List.replicate_succ]
      rfl

/-- Under permanent timeouts the loop never terminates and never raises: for
every fuel bound it is still retrying, with uniform timeout 3.0 when entered
with timeout 3.0. -/
theorem wait_go_all_timeout (env : HandshakeEnv)
    (hall : ∀ j, env.expect j = .timedOut) :
    ∀ (fuel n : Nat),
      wait_for_shell_go env 3.0 n fuel
        = .fuelOut (List.replicate fuel ("echo RBOT\\LOGIN", 3.0)) := by
  intro fuel
  induction fuel with
  | zero => intro n; rfl
  | succ f ih =>
    intro n
    unfold wait_for_shell_go
    rw [hall n, ih (n + 1), List.replicate_succ]
    rfl

/-- The attempt trace of any handshake run is empty or one entry with the
entry timeout followed by entries with timeout 3.0. -/
theorem wait_go_sent_shape (env : HandshakeEnv) :
    ∀ (fuel : Nat) (t : ℚ) (n : Nat),
      (wait_for_shell_go env t n fuel).sent = []
      ∨ ∃ m, (wait_for_shell_go env t n fuel).sent
          = ("echo RBOT\\LOGIN", t) :: List.replicate m ("echo RBOT\\LOGIN", 3.0) := by
  intro fuel
  induction fuel with
  | zero => intro t n; exact .inl rfl
  | succ f ih =>
    intro t n
    unfold wait_for_shell_go
    cases hx : env.expect n with
    | found => exact .inr ⟨0, rfl⟩
    | failed e => exact .inr ⟨0, rfl⟩
    | timedOut =>
      rw [handshake_push_sent]
      rcases ih 3.0 (n + 1) with h | ⟨m, h⟩
      · rw [h]
        exact .inr ⟨0, rfl⟩
      · rw [h, ← List.replicate_succ]
        exact .inr ⟨m + 1, rfl⟩

/-- C7: the handshake repeatedly sends `echo RBOT\LOGIN` waiting for the
marker with timeout 0.2 on the first attempt and 3.0 on every later attempt;
it retries only on `TimeoutError` (with unbounded attempts: under permanent
timeouts no fuel bound makes it raise), propagates every other exception, and
returns as soon as the marker is observed. -/
theorem wait_for_shell_spec (env : HandshakeEnv) (fuel k : Nat)
    (hquiet : ∀ j, j < k → env.expect j = .timedOut) :
    (env.expect k = .found → k < fuel →
      wait_for_shell env fuel = .ok (handshakeSpecTrace (k + 1))) ∧
    (∀ e, env.expect k = .failed e → k < fuel →
      wait_for_shell env fuel = .raised e (handshakeSpecTrace (k + 1))) ∧
    ((∀ j, env.expect j = .timedOut) →
      wait_for_shell env fuel = .fuelOut (handshakeSpecTrace fuel)) ∧
    (wait_for_shell env fuel).sent
      = handshakeSpecTrace ((wait_for_shell env fuel).sent.length) := by
  refine ⟨?_, ?_, ?_, ?_⟩
  · intro hf hlt
    exact wait_go_found env k 0.2 0 fuel
      (fun j hj => by simpa using hquiet j hj) (by simpa using hf) hlt
  · intro e hf hlt
    exact wait_go_failed env k 0.2 0 fuel e
      (fun j hj => by simpa using hquiet j hj) (by simpa using hf) hlt
  · intro hall
    cases fuel with
    | zero => rfl
    | succ f =>
      unfold wait_for_shell wait_for_shell_go
      rw [hall 0, wait_go_all_timeout env hall f 1]
      rfl
  · rcases wait_go_sent_shape env fuel 0.2 0 with h | ⟨m, h⟩
    · unfold wait_for_shell
      rw [h]
      rfl
    · unfold wait_for_shell
      rw [h]
      simp [handshakeSpecTrace]

/-- A channel environment that times out twice and then shows the marker. -/
def envHs : HandshakeEnv :=
  ⟨fun n => if n < 2 then .timedOut else .found⟩

/-- Witness for C7: against `envHs` the handshake succeeds on the third
attempt, having sent the tagged echo with timeouts 0.2, 3.0, 3.0. -/
theorem wait_for_shell_spec_witness :
    wait_for_shell envHs 5 = .ok (handshakeSpecTrace 3) :=
  (wait_for_shell_spec envHs 5 2
    (fun j hj => by simp [envHs, hj])).1 rfl (by omega)

/-! ## Channel ownership: take semantics -/

/-- The two API-misuse errors of the channel ownership layer:
`rbot.exceptions.ChannelTakenException` (exceptions.py:38-46) and
`ChannelBorrowedException` (exceptions.py:29-35). -/
inductive ChanAccessErr where
  | channelTaken
  | channelBorrowed
deriving DecidableEq, Repr

/-- Modelled from the spec: the ownership state of the `Channel` class
(`rbot/channel/channel.py`, not under src/).  Spec §3 gives the fields
`borrow_depth: int (0 = free)` and `taken: bool` plus the identity of the
owned `ChannelIO`; §4.1 and §8 state that `take()` returns a new independent
Channel over the same `ChannelIO`, that the original transitions to "taken"
permanently and that every subsequent call on it raises the taken error
(`ShellChannel.open_channel`, channel/shell.py:261-271, relies on exactly
this to hand the live transport to a successor machine). -/
structure MChannel where
  ioId : Nat
  taken : Bool
  borrow_depth : Nat
deriving DecidableEq, Repr

/-- The access check every Channel operation performs first: a taken
reference raises `ChannelTakenException`, a borrowed one
`ChannelBorrowedException`. -/
def MChannel.checkAccess (c : MChannel) : Except ChanAccessErr Unit :=
  if c.taken then .error .channelTaken
  else if c.borrow_depth ≠ 0 then .error .channelBorrowed
  else .ok ()

/-- `Channel.take()`: hand the transport to a fresh Channel and permanently
mark this reference taken.  Returns (new channel, what this reference
becomes). -/
def MChannel.take (c : MChannel) : Except ChanAccessErr (MChannel × MChannel) :=
  match c.checkAccess with
  | .error e => .error e
  | .ok _ => .ok ({ ioId := c.ioId, taken := false, borrow_depth := 0 },
                  { c with taken := true })

/-- Channel operations as seen by the ownership layer: any ordinary guarded
operation (`sendline`, `read`, `expect`, ...) or a `take()`. -/
inductive ChanOp where
  | plain
  | doTake
deriving DecidableEq, Repr

/-- One operation on a channel reference, returning the reference's state
after the call: a plain operation leaves it unchanged, a `take` marks it
taken. -/
def MChannel.step (c : MChannel) : ChanOp → Except ChanAccessErr MChannel
  | .plain =>
    match c.checkAccess with
    | .error e => .error e
    | .ok _ => .ok c
  | .doTake =>
    match c.take with
    | .error e => .error e
    | .ok p => .ok p.2

/-- Run a sequence of operations on one channel reference, stopping at the
first error. -/
def MChannel.runOps (c : MChannel) : List ChanOp → Except ChanAccessErr MChannel
  | [] => .ok c
  | op :: ops =>
    match c.step op with
    | .error e => .error e
    | .ok c2 => c2.runOps ops

/-- C8: `take()` on a free channel returns a fresh, fully functional channel
over the same transport, and the original reference becomes permanently
inert: every nonempty sequence of subsequent operations on it fails with
`ChannelTaken` at the first operation — irreversibly, in particular no
operation ever un-takes it. -/
theorem channel_take_spec (c : MChannel)
    (hfree : c.taken = false) (hnob : c.borrow_depth = 0) :
    ∃ c2 cOld, c.take = .ok (c2, cOld) ∧
      c2.ioId = c.ioId ∧ c2.taken = false ∧ c2.borrow_depth = 0 ∧
      cOld.ioId = c.ioId ∧ cOld.taken = true ∧
      (∀ ops, ops ≠ [] → cOld.runOps ops = .error .channelTaken) := by
  have hacc : c.checkAccess = .ok () := by
    unfold MChannel.checkAccess
    rw [hfree, if_neg (by simp), if_neg (by simp [hnob])]
  refine ⟨{ ioId := c.ioId, taken := false, borrow_depth := 0 },
    { c with taken := true }, ?_, rfl, rfl, rfl, rfl, rfl, ?_⟩
  · unfold MChannel.take
    rw [hacc]
  · intro ops hne
    cases ops with
    | nil => exact absurd rfl hne
    | cons op rest =>
      have hstep : ({ c with taken := true } : MChannel).step op
          = .error .channelTaken := by
        cases op <;>
          simp [MChannel.step, MChannel.take, MChannel.checkAccess]
      unfold MChannel.runOps
      rw [hstep]

/-- Witness for C8 at a concrete free channel over transport 5. -/
theorem channel_take_spec_witness :
    ∃ c2 cOld, (MChannel.mk 5 false 0).take = .ok (c2, cOld) ∧
      c2.ioId = (MChannel.mk 5 false 0).ioId ∧ c2.taken = false ∧
      c2.borrow_depth = 0 ∧
      cOld.ioId = (MChannel.mk 5 false 0).ioId ∧ cOld.taken = true ∧
      (∀ ops, ops ≠ [] → cOld.runOps ops = .error .channelTaken) :=
  channel_take_spec (MChannel.mk 5 false 0) rfl rfl

/-! ## RunCommandProxy termination -/

/-- The errors surfacing from `terminate`/`terminate0`
(machine/shell/linux/util.py:219-257): the liveness `assert` firing, the
runctx generator not stopping (`RuntimeError`), and
`rbot.error.CommandFailure`. -/
inductive TermErr where
  | assertionFailed
  | generatorDidNotStop
  | commandFailure
deriving DecidableEq, Repr

/-- The `_c` channel slot of a proxy: the live borrowed channel, or the
`CommandEndedChannel` stub installed after termination (util.py:255,
307-309). -/
inductive ProxyChan where
  | live
  | commandEnded
deriving DecidableEq, Repr

/-- `RunCommandProxy` state (util.py:205-217): `_proxy_alive` and the `_c`
channel slot. -/
structure RunCommandProxy where
  proxy_alive : Bool
  chan : ProxyChan
deriving DecidableEq, Repr

/-- Behaviour of the suspended runctx generator when resumed: it stops with
the final `(retcode, output)` tuple, or yields again (which `terminate` turns
into a `RuntimeError`). -/
inductive GenOutcome where
  | stops (retcode : Int) (output : String)
  | yieldsAgain
deriving DecidableEq, Repr

/-- `RunCommandProxy.terminate` (util.py:236-257): `assert self._proxy_alive`
fires before any channel interaction on a second call; otherwise the
generator is resumed for the final `(retcode, output)`, the proxy leaves the
alive state and its channel is replaced by the command-ended stub. -/
def RunCommandProxy.terminate (p : RunCommandProxy) (gen : GenOutcome) :
    Except TermErr ((Int × String) × RunCommandProxy) :=
  if p.proxy_alive = false then .error .assertionFailed
  else
    match gen with
    | .yieldsAgain => .error .generatorDidNotStop
    | .stops rc out =>
      .ok ((rc, out), { proxy_alive := false, chan := .commandEnded })

/-- `RunCommandProxy.terminate0` (util.py:219-234): `terminate`, then raise
`CommandFailure` if the retcode is non-zero. -/
def RunCommandProxy.terminate0 (p : RunCommandProxy) (gen : GenOutcome) :
    Except TermErr (String × RunCommandProxy) :=
  match p.terminate gen with
  | .error e => .error e
  | .ok (r, p2) =>
    if r.1 ≠ 0 then .error .commandFailure else .ok (r.2, p2)

/-- C9: a completing first `terminate` moves the proxy out of the alive state
and installs the command-ended channel stub; on any proxy that is no longer
alive, `terminate` and `terminate0` fail the liveness assertion for every
possible generator behaviour — before interacting with channel or
generator. -/
theorem run_command_proxy_terminate_once (p : RunCommandProxy) (rc : Int)
    (out : String) (halive : p.proxy_alive = true) :
    (p.terminate (.stops rc out)
        = .ok ((rc, out), ⟨false, .commandEnded⟩)) ∧
    (∀ p2 : RunCommandProxy, p2.proxy_alive = false →
      (∀ gen, p2.terminate gen = .error .assertionFailed) ∧
      (∀ gen, p2.terminate0 gen = .error .assertionFailed)) := by
  constructor
  · unfold RunCommandProxy.terminate
    rw [if_neg (by simp [halive])]
  · intro p2 hdead
    have hterm : ∀ gen, p2.terminate gen = .error .assertionFailed := by
      intro gen
      unfold RunCommandProxy.terminate
      rw [if_pos hdead]
    refine ⟨hterm, ?_⟩
    intro gen
    unfold RunCommandProxy.terminate0
    rw [hterm gen]

/-- Witness for C9: a live proxy terminates once with retcode 0; the
resulting dead proxy rejects both calls. -/
theorem run_command_proxy_terminate_once_witness :
    ((RunCommandProxy.mk true .live).terminate (.stops 0 "done")
        = .ok ((0, "done"), ⟨false, .commandEnded⟩)) ∧
    (∀ p2 : RunCommandProxy, p2.proxy_alive = false →
      (∀ gen, p2.terminate gen = .error .assertionFailed) ∧
      (∀ gen, p2.terminate0 gen = .error .assertionFailed)) :=
  run_command_proxy_terminate_once (RunCommandProxy.mk true .live) 0 "done" rfl

end Rbot
